import Mathlib

/-
Verification development for the IPO Analytics reconciliation client
(src/src/App.jsx).  The component's state, its upload lifecycle, the
readiness probe, the result browser (sorting, percentage bars,
pagination) and the CSV export are embedded as executable Lean
definitions, and the behavioural claims about them are settled as
theorems below.

Modelling conventions:
  - React state variables become fields of `AppState`; a handler becomes
    a function `AppState → AppState` (plus extra outputs where the claim
    needs them, such as the number of network requests issued).
  - JavaScript numbers in this component are non-negative integers
    (byte counts, HTTP statuses, counts, page indices) and are modelled
    as `Nat`; where the code performs rational arithmetic followed by
    `Math.round`, the embedding uses exact integer arithmetic:
    `Math.round (x)` for non-negative rational `x = a / b` is
    `(2 * a + b) / (2 * b)` in truncated `Nat` division.
  - `JSON.parse` is a host primitive; the completion handler takes the
    parser as an explicit parameter `parse : String → Option ReconResult`
    (`none` models a thrown `SyntaxError`).
  - Network outcomes (load with a status and body, or a network error)
    are an inductive parameter, since the wire is outside the program.
-/

/-- Parsed server response (section 6 of the spec): optional scalar
counts, the status→count mapping and the status→application-numbers
mapping.  Absent JSON fields are `none`; a JS object literal is a list
of key/value pairs in insertion order. -/
structure ReconResult where
  exchange_unique_count : Option Nat
  psp_unique_count : Option Nat
  exchange_only_count : Option Nat
  status_counts : Option (List (String × Nat))
  status_applications : Option (List (String × List String))
deriving DecidableEq

/-- The component's React state (`useState` hooks plus the
`statusAppsCacheRef` ref).  Files are modelled by their names. -/
structure AppState where
  isBackendReady : Bool
  exchangeFile : Option String
  pspFile : Option String
  loading : Bool
  progress : Nat
  result : Option ReconResult
  error : Option String
  visibleStatus : Option String
  page : Nat
  statusAppsCache : List (String × List String)
deriving DecidableEq

/-- Does the pattern match the text at its first position?  This is the
substring test underlying JavaScript `String.replace` with a plain
string pattern. -/
def matchesAt : List Char → List Char → Bool
  | [], _ => true
  | _ :: _, [] => false
  | p :: ps, c :: cs => p == c && matchesAt ps cs

/-- Replace the first occurrence of `pat` by `rep` in a character list,
as JavaScript `String.replace (pat, rep)` does for string patterns
(only the first occurrence is replaced; no occurrence means no change). -/
def replaceFirstChars (pat rep : List Char) : List Char → List Char
  | [] => if matchesAt pat [] then rep else []
  | c :: cs =>
      if matchesAt pat (c :: cs) then rep ++ (c :: cs).drop pat.length
      else c :: replaceFirstChars pat rep cs

/-- JavaScript `s.replace (pat, rep)` for a plain string pattern. -/
def jsReplaceFirst (s pat rep : String) : String :=
  ⟨replaceFirstChars pat.data rep.data s.data⟩

/-- Default upload endpoint (`DEFAULT_API` in App.jsx, used when no
environment override is supplied). -/
def DEFAULT_API : String := "https://ipo-analytics-api.onrender.com/operations"

/-- Health-check URL: `API_URL.replace ('/operations', '/')`
(App.jsx line 29). -/
def healthCheckURL (apiUrl : String) : String :=
  jsReplaceFirst apiUrl "/operations" "/"

/-- Modelled from the spec: the upload URL with its final path segment
stripped, i.e. everything up to and including the last slash.  This is
the comparison definition for the claim that the probe targets the
upload endpoint's base path; the code itself uses `healthCheckURL`. -/
def specStripFinalSegment (url : String) : String :=
  ⟨(url.data.reverse.dropWhile (fun c => c != '/')).reverse⟩

/-- Outcome of the single warm-up fetch: a response with `ok` true, a
response with an HTTP error status, or a thrown network exception. -/
inductive ProbeOutcome where
  | ok
  | httpError (status : Nat)
  | thrown
deriving DecidableEq

/-- The warm-up routine (`warmUpBackend` in App.jsx): one GET to the
health-check URL; every branch of the outcome sets `isBackendReady` to
true.  Returns the new readiness flag and the list of request URLs
issued. -/
def warmUpBackend (apiUrl : String) : ProbeOutcome → Bool × List String
  | ProbeOutcome.ok => (true, [healthCheckURL apiUrl])
  | ProbeOutcome.httpError _ => (true, [healthCheckURL apiUrl])
  | ProbeOutcome.thrown => (true, [healthCheckURL apiUrl])

/-- The `clearAll` reset action (App.jsx lines 72-79). -/
def clearAll (s : AppState) : AppState :=
  { s with exchangeFile := none, pspFile := none, result := none,
           error := none, progress := 0, statusAppsCache := [] }

/-- Validation message set when a file selection is missing. -/
def validationMsg : String := "Please select both Exchange and PSP files."

/-- Error message for an HTTP-success response whose body fails to
parse as JSON. -/
def invalidJsonMsg : String := "Server returned invalid JSON or response."

/-- Error message for a network-level failure. -/
def networkErrorMsg : String :=
  "Network error while uploading files. Check CORS or API endpoint."

/-- The first two statements of `upload ()`: `setError (null)` and
`setResult (null)` (App.jsx lines 82-83). -/
def uploadCleared (s : AppState) : AppState :=
  { s with error := none, result := none }

/-- The synchronous part of `upload ()` up to `xhr.send`: clear error
and result, validate the two file selections, and either stop with a
validation error (second component `false`: nothing was sent) or enter
the loading state and send (second component `true`). -/
def uploadStart (s : AppState) : AppState × Bool :=
  let s0 := uploadCleared s
  if s0.exchangeFile.isNone || s0.pspFile.isNone then
    ({ s0 with error := some validationMsg }, false)
  else
    ({ s0 with loading := true, progress := 0 }, true)

/-- The `xhr.onload` handler (App.jsx lines 104-120): on a 2xx status,
parse the body; on success store the result and, when the payload has a
`status_applications` field, overwrite the cache with it; on parse
failure set the invalid-JSON error.  On a non-2xx status set the
transport error (using `statusText` when the body is empty, after the
JavaScript `responseText || statusText` falsiness rule). -/
def onUploadLoad (parse : String → Option ReconResult) (status : Nat)
    (responseText statusText : String) (s : AppState) : AppState :=
  let s1 := { s with loading := false }
  if 200 ≤ status ∧ status < 300 then
    match parse responseText with
    | some json =>
        let s2 := { s1 with result := some json }
        match json.status_applications with
        | some apps => { s2 with statusAppsCache := apps }
        | none => s2
    | none => { s1 with error := some invalidJsonMsg }
  else
    { s1 with error := some ("Upload failed (" ++ toString status ++ "): " ++
        (if responseText = "" then statusText else responseText)) }

/-- The `xhr.onerror` handler (App.jsx lines 122-125). -/
def onUploadError (s : AppState) : AppState :=
  { s with loading := false, error := some networkErrorMsg }

/-- What the network does to a sent upload: `load` delivers an HTTP
status, response text and status text to `onload`; `netError` fires
`onerror`. -/
inductive UploadOutcome where
  | load (status : Nat) (responseText : String) (statusText : String)
  | netError
deriving DecidableEq

/-- One full run of the upload operation: the synchronous part, then —
only if a request was actually sent — the completion handler selected
by the outcome.  The second component counts the network requests
issued. -/
def uploadRun (parse : String → Option ReconResult) (o : UploadOutcome)
    (s : AppState) : AppState × Nat :=
  let p := uploadStart s
  if p.2 then
    match o with
    | UploadOutcome.load st txt stxt => (onUploadLoad parse st txt stxt p.1, 1)
    | UploadOutcome.netError => (onUploadError p.1, 1)
  else (p.1, 0)

/-- Upload progress handler value (App.jsx line 101):
`Math.max (1, Math.round ((loaded / total) * 100))`, with the rounding
carried out in exact integer arithmetic. -/
def progressPct (loaded total : Nat) : Nat :=
  max 1 ((200 * loaded + total) / (2 * total))

/-- The derived `statusesSorted` value (App.jsx lines 130-135): the
entries of `result.status_counts`, sorted by descending count.
JavaScript `Array.sort` is a stable sort driven by the comparator
`(a, b) => b[1] - a[1]`, i.e. `a` stays before `b` exactly when
`b.2 ≤ a.2`; a stable insertion sort with that test computes the same
list as any stable sort with it. -/
def statusesSorted (result : Option ReconResult) : List (String × Nat) :=
  match result with
  | none => []
  | some r =>
    match r.status_counts with
    | none => []
    | some sc => List.insertionSort (fun a b => b.2 ≤ a.2) sc

/-- The per-row scaling maximum (App.jsx lines 308-311):
`Math.max (...counts, 1)`. -/
def maxCount (entries : List (String × Nat)) : Nat :=
  (entries.map (fun e => e.2)).foldr max 1

/-- The percentage-bar width (App.jsx line 312):
`Math.round ((count / maxCount) * 100)` in exact integer arithmetic. -/
def pct (count m : Nat) : Nat := (200 * count + m) / (2 * m)

/-- `getApps` (App.jsx lines 146-151): the cached application list for
a status, or the empty list when the status has no cache entry. -/
def getApps (cache : List (String × List String)) (status : String) :
    List String :=
  match cache.lookup status with
  | some apps => apps
  | none => []

/-- JavaScript `Array.join (sep)`: elements concatenated with the
separator between consecutive elements. -/
def joinWith (sep : String) : List String → String
  | [] => ""
  | [a] => a
  | a :: b :: rest => a ++ sep ++ joinWith sep (b :: rest)

/-- The text handed to the CSV blob by `downloadStatusCSV` (App.jsx
lines 153-157): the header line followed by the cached application
numbers joined by newlines. -/
def downloadStatusCSVContent (cache : List (String × List String))
    (status : String) : String :=
  "applicationNumber\n" ++ joinWith "\n" (getApps cache status)

/-- Modelled from the spec: decompose a character list into its
newline-separated lines.  This is the comparison definition for the
claim that the CSV body is the header line followed by one application
number per line. -/
def splitLines : List Char → List (List Char)
  | [] => [[]]
  | c :: cs =>
    if c = '\n' then [] :: splitLines cs
    else
      match splitLines cs with
      | [] => [[c]]
      | l :: ls => (c :: l) :: ls

/-- Fixed detail-view page size (App.jsx line 22). -/
def PAGE_SIZE : Nat := 50

/-- `totalPages` (App.jsx lines 170-173):
`Math.max (1, Math.ceil (length / PAGE_SIZE))`. -/
def totalPages (apps : List String) : Nat :=
  max 1 ((apps.length + (PAGE_SIZE - 1)) / PAGE_SIZE)

/-- `visiblePageItems` (App.jsx lines 174-177):
`apps.slice ((page - 1) * PAGE_SIZE, page * PAGE_SIZE)`, where
`slice (a, b)` keeps the elements at indices `[a, b)`. -/
def visiblePageItems (apps : List String) (page : Nat) : List String :=
  (apps.drop ((page - 1) * PAGE_SIZE)).take
    (page * PAGE_SIZE - (page - 1) * PAGE_SIZE)

/-- The Prev button's page update (App.jsx line 431). -/
def prevPage (p : Nat) : Nat := max 1 (p - 1)

/-- The Next button's page update (App.jsx lines 438-440). -/
def nextPage (apps : List String) (p : Nat) : Nat :=
  min (totalPages apps) (p + 1)

/-- A concrete parsed result, standing for the outcome of an earlier
successful upload. -/
def prevResult : ReconResult :=
  { exchange_unique_count := some 7, psp_unique_count := some 9,
    exchange_only_count := some 2, status_counts := some [("MATCHED", 3)],
    status_applications := some [("MATCHED", ["A1"])] }

/-- A concrete state after an earlier successful upload: both files
selected, a non-null stored result and a populated cache. -/
def loadedState : AppState :=
  { isBackendReady := true, exchangeFile := some "exchange.csv",
    pspFile := some "psp.csv", loading := false, progress := 100,
    result := some prevResult, error := none, visibleStatus := none,
    page := 1, statusAppsCache := [("MATCHED", ["A1"])] }

/-- A parsed response carrying none of the optional fields — in
particular no status_applications mapping. -/
def emptyResult : ReconResult :=
  { exchange_unique_count := none, psp_unique_count := none,
    exchange_only_count := none, status_counts := none,
    status_applications := none }

/-- A concrete state in which the PSP file selection is missing. -/
def missingPspState : AppState :=
  { isBackendReady := true, exchangeFile := some "exchange.csv",
    pspFile := none, loading := false, progress := 0, result := none,
    error := none, visibleStatus := none, page := 1, statusAppsCache := [] }

/-- A concrete application-number list of length 120. -/
def apps120 : List String := List.replicate 120 "APP"

/-- The worked status-count example from the spec:
counts A ↦ 5, B ↦ 10, C ↦ 0. -/
def exampleCounts : ReconResult :=
  { exchange_unique_count := none, psp_unique_count := none,
    exchange_only_count := none,
    status_counts := some [("A", 5), ("B", 10), ("C", 0)],
    status_applications := none }

/-- With both files selected, an upload run ending in `onload` sends
exactly one request and hands the post-validation state to the load
handler. -/
theorem uploadRun_load (parse : String → Option ReconResult)
    (st : Nat) (txt stxt : String) (s : AppState) (ef pf : String)
    (hef : s.exchangeFile = some ef) (hpf : s.pspFile = some pf) :
    uploadRun parse (UploadOutcome.load st txt stxt) s =
      (onUploadLoad parse st txt stxt
        { uploadCleared s with loading := true, progress := 0 }, 1) := by
  simp [uploadRun, uploadStart, uploadCleared, hef, hpf]

/-- With both files selected, an upload run ending in `onerror` sends
exactly one request and hands the post-validation state to the error
handler. -/
theorem uploadRun_netError (parse : String → Option ReconResult)
    (s : AppState) (ef pf : String)
    (hef : s.exchangeFile = some ef) (hpf : s.pspFile = some pf) :
    uploadRun parse UploadOutcome.netError s =
      (onUploadError { uploadCleared s with loading := true, progress := 0 }, 1) := by
  simp [uploadRun, uploadStart, uploadCleared, hef, hpf]

/-- On a 2xx status whose body fails to parse, the load handler stops
loading and sets the invalid-JSON error, touching nothing else. -/
theorem onUploadLoad_parse_none (parse : String → Option ReconResult)
    (st : Nat) (txt stxt : String) (s : AppState)
    (h1 : 200 ≤ st) (h2 : st < 300) (hp : parse txt = none) :
    onUploadLoad parse st txt stxt s =
      { s with loading := false, error := some invalidJsonMsg } := by
  unfold onUploadLoad
  rw [if_pos ⟨h1, h2⟩, hp]

/-- On a 2xx status whose body parses to a payload without a
status_applications field, the load handler stores the payload and
leaves the cache alone. -/
theorem onUploadLoad_parse_noapps (parse : String → Option ReconResult)
    (st : Nat) (txt stxt : String) (s : AppState) (j : ReconResult)
    (h1 : 200 ≤ st) (h2 : st < 300) (hp : parse txt = some j)
    (ha : j.status_applications = none) :
    onUploadLoad parse st txt stxt s =
      { s with loading := false, result := some j } := by
  unfold onUploadLoad
  rw [if_pos ⟨h1, h2⟩, hp]
  simp [ha]

/-- C9: the readiness gate transitions to the ready state after exactly
one probe attempt in every possible outcome of that attempt — `ok`
response, HTTP error status, or thrown network exception — so the probe
is never retried and the UI is never left blocked. -/
theorem C9_probe_always_ready (apiUrl : String) (o : ProbeOutcome) :
    (warmUpBackend apiUrl o).1 = true ∧ (warmUpBackend apiUrl o).2.length = 1 := by
  cases o <;> exact ⟨rfl, rfl⟩

/-- C3 counterexample: for the configured upload endpoint URL
"https://example.com/api/upload" the probe URL computed by the code is
the unchanged upload URL, whereas stripping the upload path's final
segment yields "https://example.com/api/" — so the claim's universal
statement fails at this URL. -/
theorem C3_counterexample :
    healthCheckURL "https://example.com/api/upload" = "https://example.com/api/upload"
    ∧ specStripFinalSegment "https://example.com/api/upload" = "https://example.com/api/"
    ∧ healthCheckURL "https://example.com/api/upload"
        ≠ specStripFinalSegment "https://example.com/api/upload" := by
  exact ⟨by decide, by decide, by decide⟩

/-- C3 (amended): the readiness probe issues its single GET to the
upload URL with the first occurrence of the literal substring
"/operations" replaced by "/"; for the default configured endpoint this
coincides with the upload path with its final segment stripped. -/
theorem C3_probe_url (apiUrl : String) (o : ProbeOutcome) :
    (warmUpBackend apiUrl o).2 = [jsReplaceFirst apiUrl "/operations" "/"]
    ∧ healthCheckURL DEFAULT_API = specStripFinalSegment DEFAULT_API
    ∧ healthCheckURL DEFAULT_API = "https://ipo-analytics-api.onrender.com/" := by
  refine ⟨?_, by decide, by decide⟩
  cases o <;> rfl

/-- C7: in every state missing one or both of the two required file
selections, the upload operation sets the validation error and issues
zero network requests. -/
theorem C7_validation_blocks_network (s : AppState)
    (parse : String → Option ReconResult) (o : UploadOutcome)
    (h : s.exchangeFile = none ∨ s.pspFile = none) :
    (uploadRun parse o s).2 = 0
    ∧ (uploadRun parse o s).1.error = some validationMsg := by
  have hc : ((uploadCleared s).exchangeFile.isNone
      || (uploadCleared s).pspFile.isNone) = true := by
    rcases h with h | h <;> simp [uploadCleared, h]
  constructor <;> simp [uploadRun, uploadStart, hc]

/-- C7 witness: a concrete state with the PSP selection missing. -/
theorem C7_validation_blocks_network_witness :
    (missingPspState.exchangeFile = none ∨ missingPspState.pspFile = none)
    ∧ ((uploadRun (fun _ => none) UploadOutcome.netError missingPspState).2 = 0
      ∧ (uploadRun (fun _ => none) UploadOutcome.netError missingPspState).1.error
          = some validationMsg) :=
  ⟨Or.inr rfl,
   C7_validation_blocks_network missingPspState (fun _ => none)
     UploadOutcome.netError (Or.inr rfl)⟩

/-- C8: for a length-computable progress event the reported percentage
`max (1, round (100 * loaded / total))` lies in [1, 100] — never 0 once
transmission has started — and is monotone in the bytes loaded for a
fixed total. -/
theorem C8_progress_bounds_mono (loaded loaded2 total : Nat)
    (ht : 0 < total) (hl : loaded ≤ total) (hm : loaded ≤ loaded2) :
    1 ≤ progressPct loaded total ∧ progressPct loaded total ≤ 100
    ∧ progressPct loaded total ≤ progressPct loaded2 total := by
  refine ⟨le_max_left _ _, ?_, ?_⟩
  · apply max_le (by omega)
    have hlt : (200 * loaded + total) / (2 * total) < 101 := by
      rw [Nat.div_lt_iff_lt_mul (by omega : 0 < 2 * total)]
      omega
    omega
  · exact max_le_max (le_refl 1) (Nat.div_le_div_right (by omega))

/-- C8 witness: loaded 3 then 5 bytes out of 10. -/
theorem C8_progress_bounds_mono_witness :
    (0 : Nat) < 10 ∧ (3 : Nat) ≤ 10 ∧ (3 : Nat) ≤ 5
    ∧ (1 ≤ progressPct 3 10 ∧ progressPct 3 10 ≤ 100
      ∧ progressPct 3 10 ≤ progressPct 5 10) :=
  ⟨by decide, by decide, by decide,
   C8_progress_bounds_mono 3 5 10 (by decide) (by decide) (by decide)⟩

/-- C1 counterexample: at a concrete state holding a non-null previous
result, running the upload to a 2xx response whose body fails to parse
leaves the stored result different from its prior value (it is null,
having been cleared when the upload began). -/
theorem C1_counterexample :
    loadedState.result = some prevResult
    ∧ (uploadRun (fun _ => none) (UploadOutcome.load 200 "bad" "OK")
        loadedState).1.result ≠ loadedState.result := by
  exact ⟨rfl, by decide⟩

/-- C1 (amended): if an upload completes with a 2xx status but the body
fails to parse as JSON, the structured invalid-JSON error is surfaced
and the stored result is null — the upload operation cleared the
previous result on entry, so it is not preserved — while the
status-application cache from any earlier upload is left unchanged. -/
theorem C1_parse_failure_clears_result (s : AppState)
    (parse : String → Option ReconResult) (st : Nat) (txt stxt ef pf : String)
    (hef : s.exchangeFile = some ef) (hpf : s.pspFile = some pf)
    (h1 : 200 ≤ st) (h2 : st < 300) (hp : parse txt = none) :
    (uploadRun parse (UploadOutcome.load st txt stxt) s).1.error = some invalidJsonMsg
    ∧ (uploadRun parse (UploadOutcome.load st txt stxt) s).1.result = none
    ∧ (uploadRun parse (UploadOutcome.load st txt stxt) s).1.statusAppsCache
        = s.statusAppsCache := by
  rw [uploadRun_load parse st txt stxt s ef pf hef hpf]
  rw [onUploadLoad_parse_none parse st txt stxt _ h1 h2 hp]
  exact ⟨rfl, rfl, rfl⟩

/-- C1 witness: the amended statement at the concrete loaded state. -/
theorem C1_parse_failure_clears_result_witness :
    loadedState.exchangeFile = some "exchange.csv"
    ∧ loadedState.pspFile = some "psp.csv"
    ∧ (200 : Nat) ≤ 200 ∧ (200 : Nat) < 300
    ∧ ((uploadRun (fun _ => none) (UploadOutcome.load 200 "bad" "OK")
          loadedState).1.error = some invalidJsonMsg
      ∧ (uploadRun (fun _ => none) (UploadOutcome.load 200 "bad" "OK")
          loadedState).1.result = none
      ∧ (uploadRun (fun _ => none) (UploadOutcome.load 200 "bad" "OK")
          loadedState).1.statusAppsCache = loadedState.statusAppsCache) :=
  ⟨rfl, rfl, by decide, by decide,
   C1_parse_failure_clears_result loadedState (fun _ => none) 200 "bad" "OK"
     "exchange.csv" "psp.csv" rfl rfl (by decide) (by decide) rfl⟩

/-- C2 counterexample: a successful upload whose parsed payload has no
status_applications field leaves the cache holding exactly the entries
an earlier upload put there — in particular the cache is not empty. -/
theorem C2_counterexample :
    (uploadRun (fun _ => some emptyResult) (UploadOutcome.load 200 "resp" "OK")
        loadedState).1.statusAppsCache = [("MATCHED", ["A1"])]
    ∧ (uploadRun (fun _ => some emptyResult) (UploadOutcome.load 200 "resp" "OK")
        loadedState).1.statusAppsCache ≠ [] := by
  exact ⟨by decide, by decide⟩

/-- C2 (amended): for a successful upload whose parsed response has no
status_applications field, the completion handler leaves the cache
unchanged — entries placed by an earlier upload are still present, and
the stored result becomes the new payload; only the reset action
empties the cache. -/
theorem C2_missing_apps_cache_preserved (s : AppState)
    (parse : String → Option ReconResult) (st : Nat)
    (txt stxt ef pf : String) (j : ReconResult)
    (hef : s.exchangeFile = some ef) (hpf : s.pspFile = some pf)
    (h1 : 200 ≤ st) (h2 : st < 300) (hp : parse txt = some j)
    (ha : j.status_applications = none) :
    (uploadRun parse (UploadOutcome.load st txt stxt) s).1.statusAppsCache
        = s.statusAppsCache
    ∧ (uploadRun parse (UploadOutcome.load st txt stxt) s).1.result = some j
    ∧ (clearAll s).statusAppsCache = [] := by
  rw [uploadRun_load parse st txt stxt s ef pf hef hpf]
  rw [onUploadLoad_parse_noapps parse st txt stxt _ j h1 h2 hp ha]
  exact ⟨rfl, rfl, rfl⟩

/-- C2 witness: the amended statement at the concrete loaded state and
a payload with no status_applications field. -/
theorem C2_missing_apps_cache_preserved_witness :
    loadedState.exchangeFile = some "exchange.csv"
    ∧ loadedState.pspFile = some "psp.csv"
    ∧ (200 : Nat) ≤ 200 ∧ (200 : Nat) < 300
    ∧ emptyResult.status_applications = none
    ∧ ((uploadRun (fun _ => some emptyResult) (UploadOutcome.load 200 "resp" "OK")
          loadedState).1.statusAppsCache = loadedState.statusAppsCache
      ∧ (uploadRun (fun _ => some emptyResult) (UploadOutcome.load 200 "resp" "OK")
          loadedState).1.result = some emptyResult
      ∧ (clearAll loadedState).statusAppsCache = []) :=
  ⟨rfl, rfl, by decide, by decide, rfl,
   C2_missing_apps_cache_preserved loadedState (fun _ => some emptyResult) 200
     "resp" "OK" "exchange.csv" "psp.csv" emptyResult rfl rfl
     (by decide) (by decide) rfl rfl⟩

/-- C10: every invocation of the upload operation clears both the error
and the stored result before anything else, and any run that does not
end in a successfully parsed 2xx response — validation failure,
transport error, HTTP error status, or parse failure — leaves the
stored result null. -/
theorem C10_result_null_unless_parsed (s : AppState)
    (parse : String → Option ReconResult) (o : UploadOutcome)
    (h : ∀ st txt stxt, o = UploadOutcome.load st txt stxt →
          200 ≤ st → st < 300 → parse txt = none) :
    (uploadCleared s).error = none ∧ (uploadCleared s).result = none
    ∧ (uploadRun parse o s).1.result = none := by
  refine ⟨rfl, rfl, ?_⟩
  rcases hef : s.exchangeFile with _ | ef
  · simp [uploadRun, uploadStart, uploadCleared, hef]
  rcases hpf : s.pspFile with _ | pf
  · simp [uploadRun, uploadStart, uploadCleared, hef, hpf]
  cases o with
  | netError => rw [uploadRun_netError parse s ef pf hef hpf]; rfl
  | load st txt stxt =>
    rw [uploadRun_load parse st txt stxt s ef pf hef hpf]
    by_cases hst : 200 ≤ st ∧ st < 300
    · rw [onUploadLoad_parse_none parse st txt stxt _ hst.1 hst.2
        (h st txt stxt rfl hst.1 hst.2)]
      rfl
    · show (onUploadLoad parse st txt stxt _).result = none
      unfold onUploadLoad
      rw [if_neg hst]
      rfl

/-- C10 witness: the conclusion at the concrete loaded state for an
upload ending in a network error. -/
theorem C10_result_null_unless_parsed_witness :
    (uploadCleared loadedState).error = none
    ∧ (uploadCleared loadedState).result = none
    ∧ (uploadRun (fun _ => none) UploadOutcome.netError loadedState).1.result = none :=
  C10_result_null_unless_parsed loadedState (fun _ => none) UploadOutcome.netError
    (fun _ _ _ heq _ _ => nomatch heq)

/-- C4: for every application list and page size 50, totalPages is
max (1, ceil (length / 50)) — one page even for the empty list — a page
p in [1, totalPages] shows exactly the items at indices
[(p-1)*50, min (p*50, length)), the Prev and Next updates clamp the
page into [1, totalPages] and are no-ops at the boundaries, and for a
list of length 120 there are 3 pages with page 1 showing items [0, 50)
and page 3 showing items [100, 120). -/
theorem C4_pagination (apps : List String) (p : Nat)
    (hp1 : 1 ≤ p) (hp2 : p ≤ totalPages apps) :
    totalPages apps = max 1 (apps.length ⌈/⌉ PAGE_SIZE)
    ∧ visiblePageItems apps p = (apps.take (p * PAGE_SIZE)).drop ((p - 1) * PAGE_SIZE)
    ∧ 1 ≤ prevPage p ∧ prevPage p ≤ totalPages apps
    ∧ 1 ≤ nextPage apps p ∧ nextPage apps p ≤ totalPages apps
    ∧ (p = 1 → prevPage p = p)
    ∧ (p = totalPages apps → nextPage apps p = p)
    ∧ (apps.length = 120 → totalPages apps = 3
        ∧ visiblePageItems apps 1 = apps.take 50
        ∧ visiblePageItems apps 3 = apps.drop 100) := by
  have h1tp : 1 ≤ totalPages apps := le_max_left _ _
  refine ⟨?_, ?_, le_max_left _ _, ?_, ?_, min_le_left _ _, ?_, ?_, ?_⟩
  · have hnum : apps.length + (PAGE_SIZE - 1) = apps.length + PAGE_SIZE - 1 := by
      simp only [PAGE_SIZE]
      omega
    unfold totalPages
    rw [Nat.ceilDiv_eq_add_pred_div, hnum]
  · have hle : (p - 1) * PAGE_SIZE ≤ p * PAGE_SIZE :=
      Nat.mul_le_mul_right _ (Nat.sub_le p 1)
    have hmn : (p - 1) * PAGE_SIZE + (p * PAGE_SIZE - (p - 1) * PAGE_SIZE)
        = p * PAGE_SIZE := by omega
    unfold visiblePageItems
    rw [List.take_drop, hmn]
  · exact max_le h1tp (le_trans (Nat.sub_le p 1) hp2)
  · exact le_min h1tp (by omega)
  · intro h
    subst h
    decide
  · intro h
    subst h
    exact Nat.min_eq_left (Nat.le_succ _)
  · intro h120
    refine ⟨?_, rfl, ?_⟩
    · unfold totalPages
      rw [h120]
      decide
    · have e3 : visiblePageItems apps 3 = (apps.drop 100).take 50 := rfl
      rw [e3]
      exact List.take_of_length_le (by rw [List.length_drop, h120]; omega)

set_option maxRecDepth 4096 in
/-- C4 witness: a list of length 120 viewed at page 3. -/
theorem C4_pagination_witness :
    1 ≤ 3 ∧ 3 ≤ totalPages apps120
    ∧ (totalPages apps120 = max 1 (apps120.length ⌈/⌉ PAGE_SIZE)
      ∧ visiblePageItems apps120 3
          = (apps120.take (3 * PAGE_SIZE)).drop ((3 - 1) * PAGE_SIZE)
      ∧ 1 ≤ prevPage 3 ∧ prevPage 3 ≤ totalPages apps120
      ∧ 1 ≤ nextPage apps120 3 ∧ nextPage apps120 3 ≤ totalPages apps120
      ∧ (3 = 1 → prevPage 3 = 3)
      ∧ (3 = totalPages apps120 → nextPage apps120 3 = 3)
      ∧ (apps120.length = 120 → totalPages apps120 = 3
          ∧ visiblePageItems apps120 1 = apps120.take 50
          ∧ visiblePageItems apps120 3 = apps120.drop 100)) :=
  ⟨by decide, by decide, C4_pagination apps120 3 (by decide) (by decide)⟩

/-- The summary ordering produced by the stable descending sort is
sorted by descending count. -/
theorem statusesSorted_sorted (r : Option ReconResult) :
    List.Sorted (fun a b : String × Nat => b.2 ≤ a.2) (statusesSorted r) := by
  rcases r with _ | ⟨a, b, c, sco, sa⟩
  · exact List.sorted_nil
  · cases sco with
    | none => exact List.sorted_nil
    | some sc =>
      haveI : IsTotal (String × Nat) (fun a b => b.2 ≤ a.2) :=
        ⟨fun x y => le_total y.2 x.2⟩
      haveI : IsTrans (String × Nat) (fun a b => b.2 ≤ a.2) :=
        ⟨fun x y z hxy hyz => le_trans hyz hxy⟩
      exact List.sorted_insertionSort _ sc

/-- C5: the summary ordering is descending by count and is a
permutation of the status-count entries, the percentage-bar denominator
is at least 1 (so an all-zero result never divides by zero), and the
worked example with counts A ↦ 5, B ↦ 10, C ↦ 0 orders as [B, A, C]
with bars 100, 50, 0. -/
theorem C5_summary_order_and_bars (r : Option ReconResult)
    (rr : ReconResult) (sc : List (String × Nat)) :
    List.Sorted (fun a b : String × Nat => b.2 ≤ a.2) (statusesSorted r)
    ∧ (statusesSorted (some { rr with status_counts := some sc })).Perm sc
    ∧ 1 ≤ maxCount sc
    ∧ statusesSorted (some exampleCounts) = [("B", 10), ("A", 5), ("C", 0)]
    ∧ (statusesSorted (some exampleCounts)).map
        (fun e => pct e.2 (maxCount (statusesSorted (some exampleCounts))))
        = [100, 50, 0] := by
  refine ⟨statusesSorted_sorted r, ?_, ?_, by decide, by decide⟩
  · exact List.perm_insertionSort _ sc
  · have hfold : ∀ l : List Nat, 1 ≤ l.foldr max 1 := by
      intro l
      induction l with
      | nil => exact le_refl 1
      | cons x xs ih => exact le_trans ih (le_max_right x _)
    exact hfold _

/-- Splitting a character list that begins with a newline yields an
empty first line. -/
theorem splitLines_cons_newline (cs : List Char) :
    splitLines ('\n' :: cs) = [] :: splitLines cs := by
  simp [splitLines]

/-- Prepending newline-free characters extends the first line of a
split. -/
theorem splitLines_prepend (cs r : List Char) (rs : List (List Char))
    (hcs : splitLines cs = r :: rs) :
    ∀ xs : List Char, (∀ c ∈ xs, ¬ c = '\n') →
      splitLines (xs ++ cs) = (xs ++ r) :: rs := by
  intro xs
  induction xs with
  | nil =>
    intro _
    simpa using hcs
  | cons x xs ih =>
    intro hx
    have hx0 : ¬ x = '\n' := hx x (List.mem_cons_self x xs)
    have hih := ih (fun c hc => hx c (List.mem_cons_of_mem x hc))
    simp [splitLines, hx0, hih]

/-- A newline-free character list is a single line. -/
theorem splitLines_no_newline (xs : List Char)
    (hx : ∀ c ∈ xs, ¬ c = '\n') : splitLines xs = [xs] := by
  simpa using splitLines_prepend [] [] [] rfl xs hx

/-- Joining newline-free lines with newlines is a right inverse of
splitting into lines. -/
theorem splitLines_joinWith :
    ∀ apps : List String, apps ≠ [] →
      (∀ a ∈ apps, ∀ c ∈ a.data, ¬ c = '\n') →
      splitLines (joinWith "\n" apps).data = apps.map String.data := by
  intro apps
  induction apps with
  | nil =>
    intro h _
    exact absurd rfl h
  | cons a rest ih =>
    intro _ hnl
    cases rest with
    | nil =>
      simp only [joinWith, List.map_cons, List.map_nil]
      exact splitLines_no_newline a.data (hnl a (List.mem_cons_self a []))
    | cons b rest2 =>
      have hih := ih (by simp) (fun x hx => hnl x (List.mem_cons_of_mem a hx))
      have hj : (joinWith "\n" (a :: b :: rest2)).data
          = a.data ++ '\n' :: (joinWith "\n" (b :: rest2)).data := by
        show (a ++ "\n" ++ joinWith "\n" (b :: rest2)).data = _
        rw [String.data_append, String.data_append]
        simp
      rw [hj]
      rw [splitLines_prepend ('\n' :: (joinWith "\n" (b :: rest2)).data) []
        ((b :: rest2).map String.data)
        (by rw [splitLines_cons_newline, hih])
        a.data (hnl a (List.mem_cons_self a _))]
      simp

/-- C6: for a status whose cached application-number list is nonempty
(with newline-free application numbers, as the spec assumes), the
exported CSV content splits into exactly the header line
"applicationNumber" followed by one application number per line, with
no other content; for the cached list ["A1", "A2"] the content is
exactly "applicationNumber\nA1\nA2". -/
theorem C6_csv_export (cache : List (String × List String)) (status : String)
    (hne : getApps cache status ≠ [])
    (hnl : ∀ a ∈ getApps cache status, ∀ c ∈ a.data, ¬ c = '\n') :
    splitLines (downloadStatusCSVContent cache status).data
      = "applicationNumber".data :: (getApps cache status).map String.data
    ∧ downloadStatusCSVContent [("PENDING", ["A1", "A2"])] "PENDING"
      = "applicationNumber\nA1\nA2" := by
  refine ⟨?_, by decide⟩
  have hd : (downloadStatusCSVContent cache status).data
      = "applicationNumber".data
        ++ '\n' :: (joinWith "\n" (getApps cache status)).data := by
    show ("applicationNumber\n" ++ joinWith "\n" (getApps cache status)).data = _
    rw [String.data_append,
      (by decide : ("applicationNumber\n").data
        = "applicationNumber".data ++ ['\n']),
      List.append_assoc]
    rfl
  rw [hd]
  rw [splitLines_prepend
    ('\n' :: (joinWith "\n" (getApps cache status)).data) []
    ((getApps cache status).map String.data)
    (by rw [splitLines_cons_newline,
      splitLines_joinWith (getApps cache status) hne hnl])
    ("applicationNumber".data) (by decide)]
  simp

/-- C6 witness: the concrete cache holding PENDING ↦ ["A1", "A2"]. -/
theorem C6_csv_export_witness :
    getApps [("PENDING", ["A1", "A2"])] "PENDING" ≠ []
    ∧ (splitLines
        (downloadStatusCSVContent [("PENDING", ["A1", "A2"])] "PENDING").data
        = "applicationNumber".data
          :: (getApps [("PENDING", ["A1", "A2"])] "PENDING").map String.data
      ∧ downloadStatusCSVContent [("PENDING", ["A1", "A2"])] "PENDING"
        = "applicationNumber\nA1\nA2") :=
  ⟨by decide,
   C6_csv_export [("PENDING", ["A1", "A2"])] "PENDING" (by decide) (by decide)⟩
